import Mathlib

/-!
Verification of the DoIP/UDS protocol layer and CAFD binary decoder of the
`ios-ecu-coding-tool` repository (files `backend/doip_protocol.py`,
`backend/g01_x3_b48_module.py`, `backend/server.py`).

Bytes are modelled as `List Nat` (entries `< 256` on real byte strings), socket
interaction as an explicit trace of operations plus an oracle supplying received
data (`none` models a socket exception during the receive), and Python
exceptions as `Except String`.
-/

namespace ECUTool

/-! ## Byte-string primitives (Python `struct` / `bytes` semantics) -/

/-- Big-endian byte rendering of `v` in `width` bytes (the payload of a
successful `struct.pack` of one unsigned field). -/
def beBytes : Nat → Nat → List Nat
  | 0, _ => []
  | w + 1, v => v / 256 ^ w % 256 :: beBytes w v

/-- `struct` format codes used by the sources: `B` (u8), `H` (u16), `I` (u32),
all big-endian (`>` prefix). -/
inductive FCode where
  | B | H | I
deriving DecidableEq, Repr

def fcSize : FCode → Nat
  | .B => 1
  | .H => 2
  | .I => 4

/-- `struct.pack('>…', v1, …, vn)` for non-negative values: fails when the
number of values does not match the format, or a value is out of range for its
field; otherwise concatenates the big-endian fields. -/
def structPack (fmt : List FCode) (vals : List Nat) : Except String (List Nat) :=
  if vals.length = fmt.length then
    if (fmt.zip vals).all (fun cv => cv.2 < 256 ^ fcSize cv.1) then
      .ok ((fmt.zip vals).foldr (fun cv acc => beBytes (fcSize cv.1) cv.2 ++ acc) [])
    else .error "struct.error: argument out of range"
  else .error "struct.error: pack expected a different number of items"

/-- `struct.pack('B', x)` where `x` is a Python `int` that may be negative
(used for the `2*level-1` sub-function arithmetic). -/
def packB (x : Int) : Except String (List Nat) :=
  if 0 ≤ x ∧ x < 256 then .ok [x.toNat] else .error "struct.error: ubyte format requires 0 <= number <= 255"

/-- `struct.unpack('>H', bs)[0]`: requires a buffer of exactly 2 bytes. -/
def unpackH (bs : List Nat) : Except String Nat :=
  match bs with
  | [a, b] => .ok (a * 256 + b)
  | _ => .error "struct.error: unpack requires a buffer of 2 bytes"

/-- Python `bytes([…])`: fails when an entry is not a byte. -/
def pyBytes (vals : List Nat) : Except String (List Nat) :=
  if vals.all (· < 256) then .ok vals else .error "ValueError: bytes must be in range(0, 256)"

/-- Python slice `data[i:j]` for `0 ≤ i ≤ j`. -/
def pySlice (data : List Nat) (i j : Nat) : List Nat :=
  (data.drop i).take (j - i)

/-! ## Socket interaction trace -/

/-- One socket operation performed by a `DoIPConnection` method. -/
inductive SocketOp where
  | send (packet : List Nat)
  | recv
deriving DecidableEq, Repr

/-! ## `DoIPConnection` (backend/doip_protocol.py) -/

/-- `DoIPConnection.source_address` (tester address). -/
def source_address : Nat := 0x0E00

/-- `doip_protocol.py:49`: `header = struct.pack('>BBHII', 0x02, 0xFD, 0x0005, 0x00000007)` —
the format names five fields but four values are supplied. -/
def routingActivationHeader : Except String (List Nat) :=
  structPack [.B, .B, .H, .I, .I] [0x02, 0xFD, 0x0005, 0x00000007]

/-- `doip_protocol.py:52`: `payload = struct.pack('>HBI', source_address, 0x00, 0x00000000)`. -/
def routingActivationPayload : Except String (List Nat) :=
  structPack [.H, .B, .I] [source_address, 0x00, 0x00000000]

/-- `DoIPConnection.send_routing_activation` (doip_protocol.py:46-82).
`response` is the oracle for `socket.recv`.  The first component is the socket
trace; the second is the returned bool, or the Python exception that escapes
the method (the `struct.pack` calls sit before its `try` block). -/
def send_routing_activation (response : List Nat) :
    List SocketOp × Except String Bool :=
  match routingActivationHeader with
  | .error e => ([], .error e)
  | .ok header =>
    match routingActivationPayload with
    | .error e => ([], .error e)
    | .ok payload =>
      let packet := header ++ payload
      -- try: send, recv, parse; any exception inside returns False
      if response.length < 8 then ([.send packet, .recv], .ok false)
      else
        match unpackH (pySlice response 2 4) with
        | .error _ => ([.send packet, .recv], .ok false)
        | .ok payload_type =>
          if payload_type = 0x0006 then
            let response_code := if response.length > 13 then response.getD 13 0 else 0
            ([.send packet, .recv], .ok (response_code = 0x10))
          else ([.send packet, .recv], .ok false)

/-- The DoIP diagnostic-message packet built by
`DoIPConnection.send_diagnostic_request` (doip_protocol.py:99-109). -/
def buildDiagPacket (sourceAddr targetEcu : Nat) (uds : List Nat) :
    Except String (List Nat) :=
  let payload_length := 4 + uds.length
  match structPack [.B, .B, .H, .I] [0x02, 0xFD, 0x8001, payload_length] with
  | .error e => .error e
  | .ok header =>
    match structPack [.H, .H] [sourceAddr, targetEcu] with
    | .error e => .error e
    | .ok addresses => .ok (header ++ addresses ++ uds)

/-- Response handling of `DoIPConnection.send_diagnostic_request`
(doip_protocol.py:122-135): length check, payload-type check, strip the
12-byte prefix.  The declared payloadLength field (bytes 4-7) is never read. -/
def parseDiagResponse (response : List Nat) : Option (List Nat) :=
  if response.length < 12 then none
  else
    match unpackH (pySlice response 2 4) with
    | .error _ => none
    | .ok resp_type =>
      if resp_type = 0x8001 then some (response.drop 12) else none

/-- The declared payloadLength field of a DoIP frame (header bytes 4-7,
big-endian u32); used only to state properties, the code never reads it. -/
def declaredPayloadLength (frame : List Nat) : Nat :=
  (pySlice frame 4 8).foldl (fun a b => a * 256 + b) 0

/-- `DoIPConnection.send_diagnostic_request` (doip_protocol.py:84-139).
`connected` is the flag set by `connect`; `response` is the `recv` oracle
(`none` = socket exception).  Result: socket trace, and either the Python
exception escaping the method (a `struct.error` from packet building, which
sits before the `try`) or the returned `Optional[bytes]`. -/
def send_diagnostic_request (connected : Bool) (target_ecu : Nat)
    (uds_data : List Nat) (response : Option (List Nat)) :
    List SocketOp × Except String (Option (List Nat)) :=
  if connected = false then ([], .ok none)
  else
    match buildDiagPacket source_address target_ecu uds_data with
    | .error e => ([], .error e)
    | .ok packet =>
      match response with
      | none => ([.send packet, .recv], .ok none)
      | some resp => ([.send packet, .recv], .ok (parseDiagResponse resp))

/-- `DoIPConnection.request_seed` (doip_protocol.py:166-179). -/
def request_seed (connected : Bool) (ecu_address security_level : Nat)
    (response : Option (List Nat)) :
    List SocketOp × Except String (Option (List Nat)) :=
  match pyBytes [0x27, security_level] with
  | .error e => ([], .error e)
  | .ok uds_request =>
    match send_diagnostic_request connected ecu_address uds_request response with
    | (ops, .error e) => (ops, .error e)
    | (ops, .ok none) => (ops, .ok none)
    | (ops, .ok (some resp)) =>
      -- `if not response or response[0] != 0x67: return None`
      match resp with
      | [] => (ops, .ok none)
      | b :: _ =>
        if b ≠ 0x67 then (ops, .ok none)
        else (ops, .ok (some (pySlice resp 2 6)))

/-- `DoIPConnection.send_key` (doip_protocol.py:181-192). -/
def send_key (connected : Bool) (ecu_address security_level : Nat)
    (key : List Nat) (response : Option (List Nat)) :
    List SocketOp × Except String Bool :=
  match pyBytes [0x27, security_level + 1] with
  | .error e => ([], .error e)
  | .ok prefixBytes =>
    let uds_request := prefixBytes ++ key
    match send_diagnostic_request connected ecu_address uds_request response with
    | (ops, .error e) => (ops, .error e)
    | (ops, .ok none) => (ops, .ok false)
    | (ops, .ok (some resp)) =>
      match resp with
      | [] => (ops, .ok false)
      | b :: _ => (ops, .ok (b = 0x67))

/-- `DoIPConnection.read_parameter` (doip_protocol.py:194-204). -/
def read_parameter (connected : Bool) (ecu_address did : Nat)
    (response : Option (List Nat)) :
    List SocketOp × Except String (Option (List Nat)) :=
  match structPack [.B, .H] [0x22, did] with
  | .error e => ([], .error e)
  | .ok uds_request =>
    match send_diagnostic_request connected ecu_address uds_request response with
    | (ops, .error e) => (ops, .error e)
    | (ops, .ok none) => (ops, .ok none)
    | (ops, .ok (some resp)) =>
      -- `if not response or response[0] != 0x62: return None`
      match resp with
      | [] => (ops, .ok none)
      | b :: _ =>
        if b ≠ 0x62 then (ops, .ok none)
        else (ops, .ok (some (resp.drop 3)))

/-! ## `BMWSeedToKey` (backend/g01_x3_b48_module.py:44-87) -/

/-- `struct.unpack('>I', seed)[0]` for a 4-byte buffer (the callers check the
length first). -/
def unpackIVal (bs : List Nat) : Nat :=
  bs.foldl (fun a b => a * 256 + b) 0

/-- `BMWSeedToKey.calculate_key_level3` (g01_x3_b48_module.py:50-69): raises
`ValueError` unless the seed is exactly 4 bytes, else XOR, multiply-add and
16-bit rotate, each masked to 32 bits, packed back big-endian. -/
def calculate_key_level3 (seed : List Nat) : Except String (List Nat) :=
  if seed.length ≠ 4 then .error "ValueError: Seed must be 4 bytes"
  else
    let seed_int := unpackIVal seed
    let k1 := seed_int ^^^ 0x94C1
    let k2 := (k1 * 0x8765 + 0x4321) &&& 0xFFFFFFFF
    let k3 := ((k2 <<< 16) ||| (k2 >>> 16)) &&& 0xFFFFFFFF
    .ok (beBytes 4 k3)

/-- `BMWSeedToKey.calculate_key_level4` (g01_x3_b48_module.py:71-87). -/
def calculate_key_level4 (seed : List Nat) : Except String (List Nat) :=
  if seed.length ≠ 4 then .error "ValueError: Seed must be 4 bytes"
  else
    let seed_int := unpackIVal seed
    let k1 := seed_int ^^^ 0x4F2A
    let k2 := (k1 * 0xABCD + 0x5678) &&& 0xFFFFFFFF
    let k3 := k2 ^^^ 0xFF00FF00
    .ok (beBytes 4 k3)

/-! ## `G01ECUManager.unlock_ecu` (backend/g01_x3_b48_module.py:234-280)

Requests go through `ENETConnection.send_uds_request(service_id, data)`
(server.py:140-158), whose wire message is `pack('B', service_id) + data`; it
raises when the socket fails.  `oracle n` is the response to the n-th request
(`none` = exception raised by the request).  The whole method body sits in a
`try` whose `except` returns `False`. -/

/-- `G01ECUManager.unlock_ecu`: returns the bool result and the list of UDS
messages put on the wire, in order. -/
def unlock_ecu (security_level : Nat) (oracle : Nat → Option (List Nat)) :
    Bool × List (List Nat) :=
  -- await self.enet.send_uds_request(0x10, struct.pack('B', 0x03)); result unused
  let msg1 : List Nat := [0x10, 0x03]
  match oracle 0 with
  | none => (false, [msg1])
  | some _ =>
    -- seed request sub-function: struct.pack('B', security_level * 2 - 1)
    match packB (2 * (security_level : Int) - 1) with
    | .error _ => (false, [msg1])
    | .ok sub =>
      let msg2 := 0x27 :: sub
      match oracle 1 with
      | none => (false, [msg1, msg2])
      | some seed_response =>
        match seed_response with
        | [] => (false, [msg1, msg2])  -- seed_response[0] raises IndexError
        | b :: _ =>
          if b ≠ 0x67 then (false, [msg1, msg2])
          else
            let seed := pySlice seed_response 2 6
            let keyE : Except String (List Nat) :=
              if security_level = 3 then calculate_key_level3 seed
              else if security_level = 4 then calculate_key_level4 seed
              else .error "ValueError: Invalid security level"
            match keyE with
            | .error _ => (false, [msg1, msg2])
            | .ok key =>
              -- key sub-function: struct.pack('B', security_level * 2)
              match packB (2 * (security_level : Int)) with
              | .error _ => (false, [msg1, msg2])
              | .ok sub2 =>
                let msg3 := 0x27 :: sub2 ++ key
                match oracle 2 with
                | none => (false, [msg1, msg2, msg3])
                | some key_response =>
                  match key_response with
                  | [] => (false, [msg1, msg2, msg3])
                  | c :: _ => (c = 0x67, [msg1, msg2, msg3])

/-! ## UTF-8 decoding (CPython semantics)

`bytes.decode('utf-8', errors='ignore')` drops every maximal subpart of an
ill-formed sequence and never raises: it is a total function.  The decoder
below follows CPython's validation: continuation bytes are `0x80-0xBF` with the
restricted ranges after `0xE0`/`0xED`/`0xF0`/`0xF4` (no overlongs, no
surrogates, nothing above `0x10FFFF`); start bytes `0x80-0xC1` and `0xF5-0xFF`
are invalid. -/

/-- UTF-8 decoding with `errors='ignore'`, structurally recursive on a fuel
counter that only needs to dominate the input length. -/
def utf8DecodeIgnoreAux : Nat → List Nat → List Char
  | 0, _ => []
  | _, [] => []
  | fuel + 1, b :: rest =>
    if b < 0x80 then Char.ofNat b :: utf8DecodeIgnoreAux fuel rest
    else if b < 0xC2 then utf8DecodeIgnoreAux fuel rest
    else if b < 0xE0 then
      match rest with
      | [] => []
      | c1 :: rest1 =>
        if 0x80 ≤ c1 ∧ c1 ≤ 0xBF then
          Char.ofNat ((b - 0xC0) * 64 + (c1 - 0x80)) :: utf8DecodeIgnoreAux fuel rest1
        else utf8DecodeIgnoreAux fuel rest
    else if b < 0xF0 then
      let lo1 := if b = 0xE0 then 0xA0 else 0x80
      let hi1 := if b = 0xED then 0x9F else 0xBF
      match rest with
      | [] => []
      | c1 :: rest1 =>
        if lo1 ≤ c1 ∧ c1 ≤ hi1 then
          match rest1 with
          | [] => []
          | c2 :: rest2 =>
            if 0x80 ≤ c2 ∧ c2 ≤ 0xBF then
              Char.ofNat ((b - 0xE0) * 4096 + (c1 - 0x80) * 64 + (c2 - 0x80)) ::
                utf8DecodeIgnoreAux fuel rest2
            else utf8DecodeIgnoreAux fuel rest1
        else utf8DecodeIgnoreAux fuel rest
    else if b < 0xF5 then
      let lo1 := if b = 0xF0 then 0x90 else 0x80
      let hi1 := if b = 0xF4 then 0x8F else 0xBF
      match rest with
      | [] => []
      | c1 :: rest1 =>
        if lo1 ≤ c1 ∧ c1 ≤ hi1 then
          match rest1 with
          | [] => []
          | c2 :: rest2 =>
            if 0x80 ≤ c2 ∧ c2 ≤ 0xBF then
              match rest2 with
              | [] => []
              | c3 :: rest3 =>
                if 0x80 ≤ c3 ∧ c3 ≤ 0xBF then
                  Char.ofNat ((b - 0xF0) * 262144 + (c1 - 0x80) * 4096 +
                      (c2 - 0x80) * 64 + (c3 - 0x80)) :: utf8DecodeIgnoreAux fuel rest3
                else utf8DecodeIgnoreAux fuel rest2
            else utf8DecodeIgnoreAux fuel rest1
        else utf8DecodeIgnoreAux fuel rest
    else utf8DecodeIgnoreAux fuel rest

/-- `bytes.decode('utf-8', errors='ignore')` on a byte list. -/
def utf8DecodeIgnore (bs : List Nat) : List Char :=
  utf8DecodeIgnoreAux bs.length bs

/-- Strict UTF-8 decoding, fuel-based: `none` on any ill-formed or truncated
sequence (CPython's default `errors='strict'`). -/
def utf8DecodeStrictAux : Nat → List Nat → Option (List Char)
  | 0, [] => some []
  | 0, _ :: _ => none
  | _, [] => some []
  | fuel + 1, b :: rest =>
    if b < 0x80 then (utf8DecodeStrictAux fuel rest).map (Char.ofNat b :: ·)
    else if b < 0xC2 then none
    else if b < 0xE0 then
      match rest with
      | [] => none
      | c1 :: rest1 =>
        if 0x80 ≤ c1 ∧ c1 ≤ 0xBF then
          (utf8DecodeStrictAux fuel rest1).map
            (Char.ofNat ((b - 0xC0) * 64 + (c1 - 0x80)) :: ·)
        else none
    else if b < 0xF0 then
      let lo1 := if b = 0xE0 then 0xA0 else 0x80
      let hi1 := if b = 0xED then 0x9F else 0xBF
      match rest with
      | [] => none
      | c1 :: rest1 =>
        if lo1 ≤ c1 ∧ c1 ≤ hi1 then
          match rest1 with
          | [] => none
          | c2 :: rest2 =>
            if 0x80 ≤ c2 ∧ c2 ≤ 0xBF then
              (utf8DecodeStrictAux fuel rest2).map
                (Char.ofNat ((b - 0xE0) * 4096 + (c1 - 0x80) * 64 + (c2 - 0x80)) :: ·)
            else none
        else none
    else if b < 0xF5 then
      let lo1 := if b = 0xF0 then 0x90 else 0x80
      let hi1 := if b = 0xF4 then 0x8F else 0xBF
      match rest with
      | [] => none
      | c1 :: rest1 =>
        if lo1 ≤ c1 ∧ c1 ≤ hi1 then
          match rest1 with
          | [] => none
          | c2 :: rest2 =>
            if 0x80 ≤ c2 ∧ c2 ≤ 0xBF then
              match rest2 with
              | [] => none
              | c3 :: rest3 =>
                if 0x80 ≤ c3 ∧ c3 ≤ 0xBF then
                  (utf8DecodeStrictAux fuel rest3).map
                    (Char.ofNat ((b - 0xF0) * 262144 + (c1 - 0x80) * 4096 +
                        (c2 - 0x80) * 64 + (c3 - 0x80)) :: ·)
                else none
            else none
        else none
    else none

/-- `bytes.decode('utf-8')` (strict) on a byte list. -/
def utf8DecodeStrict (bs : List Nat) : Option (List Char) :=
  utf8DecodeStrictAux bs.length bs

/-! ## String helpers (Python `str` methods) -/

/-- Lowercase hex digit. -/
def hexDigitLower (n : Nat) : Char :=
  if n < 10 then Char.ofNat (48 + n) else Char.ofNat (87 + n)

/-- Uppercase hex digit. -/
def hexDigitUpper (n : Nat) : Char :=
  if n < 10 then Char.ofNat (48 + n) else Char.ofNat (55 + n)

/-- Python `bytes.hex()`: lowercase, two digits per byte. -/
def pyHex (bs : List Nat) : String :=
  String.mk (bs.foldr (fun b acc => hexDigitLower (b / 16 % 16) :: hexDigitLower (b % 16) :: acc) [])

/-- Python `f"{n:04X}"` for `n < 0x10000` (the ids come from `>H` unpacking of
byte strings, so they are below `0x10000`). -/
def hex4Upper (n : Nat) : String :=
  String.mk [hexDigitUpper (n / 4096 % 16), hexDigitUpper (n / 256 % 16),
    hexDigitUpper (n / 16 % 16), hexDigitUpper (n % 16)]

/-- Python `str.strip('\x00')`: removes NUL characters from **both** ends. -/
def stripNulBoth (cs : List Char) : List Char :=
  ((cs.dropWhile (· = Char.ofNat 0)).reverse.dropWhile (· = Char.ofNat 0)).reverse

/-! ## `CAFDParser._parse_cafd_binary` (backend/g01_x3_b48_module.py:127-168) -/

/-- One decoded CAFD parameter record: the dict value
`{"id", "value", "raw", "length"}` built at g01_x3_b48_module.py:158-163.
`raw` is the hex rendering stored by the source; `rawBytes` keeps the
underlying bytes it renders. -/
structure CAFDRecord where
  id : Nat
  value : String
  raw : String
  rawBytes : List Nat
  length : Nat
deriving DecidableEq, Repr

/-- `param_data.decode('utf-8', errors='ignore').strip('\x00')` — the `try`
around it at g01_x3_b48_module.py:153-156 can never reach its `except` (the
hex fallback), because decoding with `errors='ignore'` is total. -/
def cafdDecodeValue (raw : List Nat) : String :=
  String.mk (stripNulBoth (utf8DecodeIgnore raw))

/-- Python-3.7 dict insertion `d[k] = v`: an existing key keeps its position
and gets the new value; a new key is appended. -/
def dictInsert (k : String) (v : CAFDRecord) :
    List (String × CAFDRecord) → List (String × CAFDRecord)
  | [] => [(k, v)]
  | (k', v') :: d => if k' = k then (k, v) :: d else (k', v') :: dictInsert k v d

/-- The `while offset < len(data) - 4` loop of `_parse_cafd_binary`
(g01_x3_b48_module.py:138-166), driven by a fuel counter (each iteration
consumes at least 4 of the `data.length - offset` budget, so a fuel of
`data.length - offset` can never run out).  The inner `try` breaks on any
exception; when the loop condition holds both 2-byte slices are complete, so
`unpackH` cannot fail there, but the branch is kept to mirror the source. -/
def parseLoopAux : Nat → List Nat → Nat → List (String × CAFDRecord) →
    List (String × CAFDRecord)
  | 0, _, _, params => params
  | fuel + 1, data, offset, params =>
    if offset < data.length - 4 then
      match unpackH (pySlice data offset (offset + 2)),
          unpackH (pySlice data (offset + 2) (offset + 4)) with
      | .ok param_id, .ok param_len =>
        if offset + 4 + param_len > data.length then params
        else
          let param_data := pySlice data (offset + 4) (offset + 4 + param_len)
          let rec0 : CAFDRecord :=
            { id := param_id, value := cafdDecodeValue param_data,
              raw := pyHex param_data, rawBytes := param_data, length := param_len }
          parseLoopAux fuel data (offset + 4 + param_len)
            (dictInsert ("param_" ++ hex4Upper param_id) rec0 params)
      | _, _ => params
    else params

/-- The `while` loop entered at `offset`, with adequate fuel. -/
def parseLoop (data : List Nat) (offset : Nat)
    (params : List (String × CAFDRecord)) : List (String × CAFDRecord) :=
  parseLoopAux (data.length - offset) data offset params

/-- `CAFDParser._parse_cafd_binary`: skip the 32-byte header, then the record
loop starting from an empty dict. -/
def parse_cafd_binary (data : List Nat) : List (String × CAFDRecord) :=
  parseLoop data 32 []

/-- Modelled from the spec (§4.6): the record-value decoding the spec
describes — "attempt UTF-8 decode with trailing NUL padding stripped; on
decode failure, fall back to a lowercase-hex string".  Used only to compare
the spec's description against the source's value decoding. -/
def specDecodeValue (raw : List Nat) : String :=
  match utf8DecodeStrict raw with
  | some cs => String.mk (cs.reverse.dropWhile (· = Char.ofNat 0)).reverse
  | none => pyHex raw

/-! ## Helper lemmas -/

instance {ε α : Type} [DecidableEq ε] [DecidableEq α] : DecidableEq (Except ε α) :=
  fun x y =>
    match x, y with
    | .ok a, .ok b => if h : a = b then isTrue (by rw [h]) else isFalse (by simp [h])
    | .error e, .error f => if h : e = f then isTrue (by rw [h]) else isFalse (by simp [h])
    | .ok _, .error _ => isFalse (by simp)
    | .error _, .ok _ => isFalse (by simp)

theorem beBytes_length : ∀ w v : Nat, (beBytes w v).length = w
  | 0, _ => rfl
  | w + 1, v => by simp [beBytes, beBytes_length w v]

theorem beBytes_lt : ∀ w v : Nat, ∀ b ∈ beBytes w v, b < 256 := by
  intro w
  induction w with
  | zero => intro v b hb; simp [beBytes] at hb
  | succ n ih =>
    intro v b hb
    simp only [beBytes, List.mem_cons] at hb
    rcases hb with h | h
    · subst h; exact Nat.mod_lt _ (by norm_num)
    · exact ih v b h

theorem packB_ok (x : Int) (l : List Nat) (h : packB x = .ok l) :
    l = [x.toNat] ∧ 0 ≤ x ∧ x < 256 := by
  unfold packB at h
  split at h
  · exact ⟨(Except.ok.injEq _ _).mp h.symm, by assumption⟩
  · exact absurd h (by simp)

theorem dictInsert_forall (P : String × CAFDRecord → Prop) (k : String)
    (v : CAFDRecord) (d : List (String × CAFDRecord))
    (hd : ∀ p ∈ d, P p) (hv : P (k, v)) :
    ∀ p ∈ dictInsert k v d, P p := by
  induction d with
  | nil => simpa [dictInsert]
  | cons q d ih =>
    intro p hp
    rw [dictInsert] at hp
    split at hp
    · rcases List.mem_cons.mp hp with h | h
      · exact h ▸ hv
      · exact hd p (List.mem_cons_of_mem q h)
    · rcases List.mem_cons.mp hp with h | h
      · exact h ▸ hd q (List.mem_cons_self q d)
      · exact ih (fun r hr => hd r (List.mem_cons_of_mem q hr)) p h

/-- The diagnostic packet built by `send_diagnostic_request`, in explicit form
(valid when the addresses fit u16 and the payload length fits u32). -/
theorem buildDiagPacket_eq (sa ta : Nat) (uds : List Nat)
    (hsa : sa < 65536) (hta : ta < 65536) (hlen : 4 + uds.length < 4294967296) :
    buildDiagPacket sa ta uds =
      .ok (0x02 :: 0xFD :: 0x80 :: 0x01 :: (beBytes 4 (4 + uds.length) ++
        (sa / 256 % 256 :: sa % 256 :: ta / 256 % 256 :: ta % 256 :: uds))) := by
  unfold buildDiagPacket structPack
  simp only [List.length_cons, List.length_nil, List.zip_cons_cons, List.zip_nil_right,
    List.all_cons, List.all_nil, Bool.and_eq_true, decide_eq_true_eq, List.foldr,
    if_true, beBytes]
  rw [if_pos ?c1, if_pos ?c2]
  case c1 =>
    refine ⟨by norm_num [fcSize], by norm_num [fcSize], by norm_num [fcSize], ?_, trivial⟩
    simpa [fcSize] using hlen
  case c2 =>
    exact ⟨by simpa [fcSize] using hsa, by simpa [fcSize] using hta, trivial⟩
  norm_num

/-! ## Claim theorems -/

/-- C1: the routing-activation request `struct.pack('>BBHII', …)` supplies
four values to a five-field format, so every routing-activation attempt raises
`struct.error` before anything is written to the socket: the claimed 15-byte
packet (8-byte header + 7-byte payload) is never sent. -/
theorem routing_activation_raises_and_sends_nothing :
    ∀ response : List Nat,
      (send_routing_activation response).1 = [] ∧
      (send_routing_activation response).2 =
        Except.error "struct.error: pack expected a different number of items" := by
  intro response
  exact ⟨rfl, rfl⟩

/-- C6: with the connected flag false, `send_diagnostic_request` returns the
failure result `None` without performing any socket operation (no send, no
receive). -/
theorem send_diagnostic_rejected_when_not_connected :
    ∀ (target_ecu : Nat) (uds_data : List Nat) (response : Option (List Nat)),
      send_diagnostic_request false target_ecu uds_data response =
        ([], Except.ok none) := by
  intro _ _ _
  rfl

/-- C10: the seed-to-key transforms are pure total functions on 4-byte seeds:
a 4-byte seed yields exactly 4 result bytes (each a byte, all arithmetic
masked to 32 bits) at both levels, and any other seed length raises
`ValueError`; determinism is immediate since both are functions. -/
theorem seed_to_key_total (seed : List Nat) :
    (seed.length = 4 →
      ∃ k3 k4, calculate_key_level3 seed = .ok k3 ∧ k3.length = 4 ∧
        (∀ b ∈ k3, b < 256) ∧ calculate_key_level4 seed = .ok k4 ∧
        k4.length = 4 ∧ (∀ b ∈ k4, b < 256)) ∧
    (seed.length ≠ 4 →
      calculate_key_level3 seed = .error "ValueError: Seed must be 4 bytes" ∧
      calculate_key_level4 seed = .error "ValueError: Seed must be 4 bytes") := by
  constructor
  · intro h4
    rw [calculate_key_level3, if_neg (fun hn => hn h4),
      calculate_key_level4, if_neg (fun hn => hn h4)]
    exact ⟨_, _, rfl, beBytes_length 4 _, beBytes_lt 4 _, rfl,
      beBytes_length 4 _, beBytes_lt 4 _⟩
  · intro hn
    rw [calculate_key_level3, if_pos hn, calculate_key_level4, if_pos hn]
    exact ⟨rfl, rfl⟩

/-- C9: building the type-0x8001 diagnostic frame for a UDS payload
(header with payloadLength `4 + len(uds)`, then source and target addresses,
then the UDS bytes) and parsing it with the response parser (payload-type
check, strip the 12-byte prefix) returns exactly the original UDS bytes. -/
theorem diag_frame_roundtrip (sa ta : Nat) (uds : List Nat)
    (hsa : sa < 65536) (hta : ta < 65536) (hlen : 4 + uds.length < 4294967296) :
    ∃ packet, buildDiagPacket sa ta uds = .ok packet ∧
      parseDiagResponse packet = some uds := by
  refine ⟨_, buildDiagPacket_eq sa ta uds hsa hta hlen, ?_⟩
  have hL : (0x02 :: 0xFD :: 0x80 :: 0x01 :: (beBytes 4 (4 + uds.length) ++
      (sa / 256 % 256 :: sa % 256 :: ta / 256 % 256 :: ta % 256 :: uds))).length
      = 12 + uds.length := by
    simp [beBytes_length]; omega
  rw [parseDiagResponse, if_neg (by rw [hL]; omega)]
  rfl

/-- When connected and the packet fits the format bounds,
`send_diagnostic_request` sends one packet, receives once, and returns the
parsed response. -/
theorem send_diagnostic_some (target_ecu : Nat) (uds : List Nat)
    (resp : List Nat) (hecu : target_ecu < 65536)
    (hlen : 4 + uds.length < 4294967296) :
    ∃ packet, send_diagnostic_request true target_ecu uds (some resp) =
      ([.send packet, .recv], .ok (parseDiagResponse resp)) := by
  unfold send_diagnostic_request
  rw [buildDiagPacket_eq source_address target_ecu uds
    (by norm_num [source_address]) hecu hlen]
  exact ⟨_, rfl⟩

/-- Witness for C9 at the tester address, the DME address and the VIN-read
request bytes. -/
theorem diag_frame_roundtrip_witness :
    ∃ packet, buildDiagPacket 0x0E00 0x12 [0x22, 0xF1, 0x90] = .ok packet ∧
      parseDiagResponse packet = some [0x22, 0xF1, 0x90] :=
  diag_frame_roundtrip 0x0E00 0x12 [0x22, 0xF1, 0x90]
    (by norm_num) (by norm_num) (by norm_num)

/-- A diagnostic response whose declared payloadLength field (99) does not
match the 6 payload bytes actually present. -/
def respMismatch : List Nat :=
  [0x02, 0xFD, 0x80, 0x01, 0x00, 0x00, 0x00, 0x63, 0x0E, 0x00, 0x00, 0x12, 0x62, 0xF1]

/-- Counterexample to C2: `send_diagnostic_request` returns the UDS bytes as a
successful result on a response whose declared payloadLength (99) differs from
the 6 payload bytes present — the length field is never validated. -/
theorem send_diagnostic_length_mismatch_cex :
    declaredPayloadLength respMismatch = 99 ∧ respMismatch.length = 14 ∧
    (send_diagnostic_request true 0x12 [0x22, 0xF1, 0x90] (some respMismatch)).2 =
      Except.ok (some [0x62, 0xF1]) := by
  decide

/-- C2 (amended): the response check of `send_diagnostic_request` consults
only the total length (≥ 12) and the payload type (bytes 2-3 = 0x8001); the
declared payloadLength field is ignored, so any such response — mismatched
length field included — yields the bytes after the 12-byte prefix. -/
theorem send_diagnostic_ignores_declared_length (target_ecu : Nat)
    (uds : List Nat) (resp : List Nat) (hecu : target_ecu < 65536)
    (hlen : 4 + uds.length < 4294967296) (h12 : 12 ≤ resp.length)
    (htype : pySlice resp 2 4 = [0x80, 0x01]) :
    (send_diagnostic_request true target_ecu uds (some resp)).2 =
      Except.ok (some (resp.drop 12)) := by
  obtain ⟨pkt, hsd⟩ := send_diagnostic_some target_ecu uds resp hecu hlen
  rw [hsd]
  simp only [parseDiagResponse, if_neg (by omega : ¬ resp.length < 12), htype]
  rfl

/-- Witness for the amended C2, at the mismatched-length response. -/
theorem send_diagnostic_ignores_declared_length_witness :
    (send_diagnostic_request true 0x12 [0x22, 0xF1, 0x90] (some respMismatch)).2 =
      Except.ok (some (respMismatch.drop 12)) :=
  send_diagnostic_ignores_declared_length 0x12 [0x22, 0xF1, 0x90] respMismatch
    (by norm_num) (by norm_num) (by decide) (by decide)

/-- A full DoIP diagnostic response carrying the negative UDS response
`7F 22 31` (requestOutOfRange) to a read request. -/
def wireNeg31 : List Nat :=
  [0x02, 0xFD, 0x80, 0x01, 0x00, 0x00, 0x00, 0x07, 0x0E, 0x00, 0x00, 0x12,
    0x7F, 0x22, 0x31]

/-- The same response with NRC 0x22 instead of 0x31. -/
def wireNeg22 : List Nat :=
  [0x02, 0xFD, 0x80, 0x01, 0x00, 0x00, 0x00, 0x07, 0x0E, 0x00, 0x00, 0x12,
    0x7F, 0x22, 0x22]

/-- Counterexample to C3: on the negative response `7F 22 31`,
`read_parameter` does return a failure, but the result is the bare `None` and
is identical to the result for NRC 0x22 — the NRC value is not surfaced to
the caller. -/
theorem read_parameter_nrc_not_surfaced_cex :
    wireNeg31.drop 12 = [0x7F, 0x22, 0x31] ∧
    (read_parameter true 0x12 0xF190 (some wireNeg31)).2 = Except.ok none ∧
    read_parameter true 0x12 0xF190 (some wireNeg31) =
      read_parameter true 0x12 0xF190 (some wireNeg22) := by
  decide

/-- C3 (amended): a negative response (first UDS byte 0x7F, e.g.
`[0x7F, 0x22, nrc]`) to `read_parameter` is never treated as success — the
result is `None` — but the NRC is only logged, not surfaced: `None` carries no
data, whatever the NRC byte is. -/
theorem read_parameter_negative_gives_none (ecu did : Nat) (wire : List Nat)
    (hecu : ecu < 65536) (hdid : did < 65536)
    (hneg : (wire.drop 12).headD 0 = 0x7F) :
    (read_parameter true ecu did (some wire)).2 = Except.ok none := by
  have hpack : structPack [.B, .H] [0x22, did] =
      .ok [0x22, did / 256 % 256, did % 256] := by
    unfold structPack
    simp only [List.length_cons, List.length_nil, List.zip_cons_cons,
      List.zip_nil_right, List.all_cons, List.all_nil, Bool.and_eq_true,
      decide_eq_true_eq, List.foldr, if_true, beBytes]
    rw [if_pos ?c]
    case c => exact ⟨by norm_num [fcSize], by simpa [fcSize] using hdid, trivial⟩
    norm_num
  obtain ⟨pkt, hsd⟩ := send_diagnostic_some ecu [0x22, did / 256 % 256, did % 256]
    wire hecu (by norm_num)
  unfold read_parameter
  simp only [hpack, hsd]
  by_cases h12 : wire.length < 12
  · simp only [parseDiagResponse, if_pos h12]
  · simp only [parseDiagResponse, if_neg h12]
    cases ht : unpackH (pySlice wire 2 4) with
    | error e => rfl
    | ok v =>
      by_cases hv : v = 0x8001
      · simp only [if_pos hv]
        cases hw : wire.drop 12 with
        | nil => rfl
        | cons b t =>
          rw [hw] at hneg
          simp only [List.headD_cons] at hneg
          subst hneg
          rfl
      · simp only [if_neg hv]

/-- Witness for the amended C3, at the `7F 22 31` response. -/
theorem read_parameter_negative_gives_none_witness :
    (read_parameter true 0x12 0xF190 (some wireNeg31)).2 = Except.ok none :=
  read_parameter_negative_gives_none 0x12 0xF190 wireNeg31
    (by norm_num) (by norm_num) (by decide)

/-- Counterexample to C4: at security level 3, `DoIPConnection.request_seed`
puts the UDS bytes `[0x27, 0x03]` on the wire, not `[0x27, 2*3-1] = [0x27, 0x05]`:
the level parameter is sent as the sub-function byte unchanged. -/
theorem request_seed_formula_cex :
    (request_seed true 0x12 3 none).1 =
      [SocketOp.send [0x02, 0xFD, 0x80, 0x01, 0x00, 0x00, 0x00, 0x06,
        0x0E, 0x00, 0x00, 0x12, 0x27, 0x03], SocketOp.recv] ∧
    (0x03 : Nat) ≠ 2 * 3 - 1 := by
  decide

/-- C4 (amended): in `G01ECUManager.unlock_ecu` every UDS message put on the
wire is the session-control request `[0x10, 0x03]`, the seed request
`[0x27, 2*level-1]`, or the key message `[0x27, 2*level] ++ key`;
`DoIPConnection.request_seed`/`send_key` instead send `[0x27, level]` and
`[0x27, level+1] ++ key`, which agree with the `2*level∓1` formula only at
level 1. -/
theorem unlock_message_shapes (security_level : Nat)
    (oracle : Nat → Option (List Nat)) :
    ∀ m ∈ (unlock_ecu security_level oracle).2,
      m = [0x10, 0x03] ∨ m = [0x27, 2 * security_level - 1] ∨
        ∃ key, m = [0x27, 2 * security_level] ++ key := by
  have hone : ∀ m ∈ [[(0x10:Nat), 0x03]],
      m = [0x10, 0x03] ∨ m = [0x27, 2 * security_level - 1] ∨
        ∃ key, m = [0x27, 2 * security_level] ++ key := by
    intro m hm
    simp only [List.mem_cons, List.not_mem_nil, or_false] at hm
    exact Or.inl hm
  unfold unlock_ecu
  dsimp only
  split
  · exact hone
  next r0 h0 =>
    split
    · exact hone
    next sub hp =>
      obtain ⟨hsub, hnn, -⟩ := packB_ok _ _ hp
      have htn : ((2 * (security_level : Int) - 1).toNat) =
          2 * security_level - 1 := by omega
      have htwo : ∀ m ∈ [[(0x10:Nat), 0x03], (0x27:Nat) :: sub],
          m = [0x10, 0x03] ∨ m = [0x27, 2 * security_level - 1] ∨
            ∃ key, m = [0x27, 2 * security_level] ++ key := by
        intro m hm
        simp only [List.mem_cons, List.not_mem_nil, or_false] at hm
        rcases hm with h | h
        · exact Or.inl h
        · exact Or.inr (Or.inl (by rw [h, hsub, htn]))
      split
      · exact htwo
      next r1 h1 =>
        split
        · exact htwo
        next b t =>
          split
          · exact htwo
          split
          · exact htwo
          next key hk =>
            split
            · exact htwo
            next sub2 hp2 =>
              obtain ⟨hs2, hnn2, -⟩ := packB_ok _ _ hp2
              have htn2 : ((2 * (security_level : Int)).toNat) =
                  2 * security_level := by omega
              have hthree : ∀ m ∈ [[(0x10:Nat), 0x03], (0x27:Nat) :: sub,
                  (0x27:Nat) :: sub2 ++ key],
                  m = [0x10, 0x03] ∨ m = [0x27, 2 * security_level - 1] ∨
                    ∃ k, m = [0x27, 2 * security_level] ++ k := by
                intro m hm
                simp only [List.mem_cons, List.not_mem_nil, or_false] at hm
                rcases hm with h | h | h
                · exact Or.inl h
                · exact Or.inr (Or.inl (by rw [h, hsub, htn]))
                · refine Or.inr (Or.inr ⟨key, ?_⟩)
                  rw [h, hs2, htn2]
              split
              · exact hthree
              split
              · exact hthree
              · exact hthree

/-- Oracle under which `unlock_ecu` completes all three steps. -/
def unlockOkOracle : Nat → Option (List Nat) :=
  fun _ => some [0x67, 0x00, 0x01, 0x02, 0x03, 0x04]

/-- Witness for the amended C4: the seed request sent by `unlock_ecu` at
level 3 under `unlockOkOracle` has one of the three claimed shapes. -/
theorem unlock_message_shapes_witness :
    [0x27, 0x05] = [0x10, 0x03] ∨ [0x27, 0x05] = [0x27, 2 * 3 - 1] ∨
      ∃ key, [(0x27:Nat), 0x05] = [0x27, 2 * 3] ++ key :=
  unlock_message_shapes 3 unlockOkOracle [0x27, 0x05] (by decide)

/-- C5: when the seed-request step of `unlock_ecu` fails (no response, empty
response, or first byte ≠ 0x67), the result is failure and the only messages
ever sent are the session-control request and at most the 2-byte seed
request — the key-send step is never issued and no step follows the failing
one. -/
theorem unlock_aborts_on_seed_failure (security_level : Nat)
    (oracle : Nat → Option (List Nat))
    (hfail : ∀ r, oracle 1 = some r → r.headD 0 ≠ 0x67) :
    (unlock_ecu security_level oracle).1 = false ∧
    ((unlock_ecu security_level oracle).2 = [[0x10, 0x03]] ∨
      ∃ s, (unlock_ecu security_level oracle).2 = [[0x10, 0x03], [0x27, s]]) := by
  unfold unlock_ecu
  dsimp only
  split
  · exact ⟨rfl, Or.inl rfl⟩
  next r0 h0 =>
    split
    · exact ⟨rfl, Or.inl rfl⟩
    next sub hp =>
      obtain ⟨hsub, -, -⟩ := packB_ok _ _ hp
      subst hsub
      split
      · exact ⟨rfl, Or.inr ⟨_, rfl⟩⟩
      next r1 h1 =>
        have hne := hfail r1 h1
        split
        · exact ⟨rfl, Or.inr ⟨_, rfl⟩⟩
        next b t =>
          simp only [List.headD_cons] at hne
          rw [if_pos hne]
          exact ⟨rfl, Or.inr ⟨_, rfl⟩⟩

/-- Oracle whose seed-request response is the negative response `7F 27 35`. -/
def seedFailOracle : Nat → Option (List Nat) :=
  fun n => if n = 1 then some [0x7F, 0x27, 0x35] else some [0x50, 0x03]

/-- Witness for C5 at level 3 under `seedFailOracle`. -/
theorem unlock_aborts_on_seed_failure_witness :
    (unlock_ecu 3 seedFailOracle).1 = false ∧
    ((unlock_ecu 3 seedFailOracle).2 = [[0x10, 0x03]] ∨
      ∃ s, (unlock_ecu 3 seedFailOracle).2 = [[0x10, 0x03], [0x27, s]]) :=
  unlock_aborts_on_seed_failure 3 seedFailOracle
    (by intro r hr; simp [seedFailOracle] at hr; subst hr; decide)

/-- A CAFD blob (36 bytes): 32-byte header, then one complete record header
`id=0x0001, len=0x0000` ending exactly at the end of the blob. -/
def blob36 : List Nat := List.replicate 32 0 ++ [0x00, 0x01, 0x00, 0x00]

/-- A CAFD blob (43 bytes): 32-byte header, a record with body `FF` (not
valid UTF-8), and a record with body `00 41` (a leading NUL then `A`). -/
def blobC8 : List Nat := List.replicate 32 0 ++
  [0x00, 0x01, 0x00, 0x01, 0xFF] ++ [0x00, 0x02, 0x00, 0x02, 0x00, 0x41]

theorem parseLoopAux_fuel_irrel : ∀ (f1 f2 : Nat) (data : List Nat)
    (offset : Nat) (acc : List (String × CAFDRecord)),
    data.length - offset ≤ f1 → data.length - offset ≤ f2 →
    parseLoopAux f1 data offset acc = parseLoopAux f2 data offset acc := by
  intro f1
  induction f1 with
  | zero =>
    intro f2 data offset acc h1 h2
    cases f2 with
    | zero => rfl
    | succ g =>
      rw [parseLoopAux, parseLoopAux, if_neg (by omega)]
  | succ f ih =>
    intro f2 data offset acc h1 h2
    cases f2 with
    | zero =>
      rw [parseLoopAux, parseLoopAux, if_neg (by omega)]
    | succ g =>
      rw [parseLoopAux]
      conv_rhs => rw [parseLoopAux]
      by_cases hc : offset < data.length - 4
      · rw [if_pos hc, if_pos hc]
        cases hu1 : unpackH (pySlice data offset (offset + 2)) with
        | error e => rfl
        | ok pid =>
          cases hu2 : unpackH (pySlice data (offset + 2) (offset + 4)) with
          | error e => rfl
          | ok plen =>
            dsimp only
            by_cases hover : offset + 4 + plen > data.length
            · rw [if_pos hover, if_pos hover]
            · rw [if_neg hover, if_neg hover]
              exact ih g data (offset + 4 + plen) _ (by omega) (by omega)
      · rw [if_neg hc, if_neg hc]

/-- Counterexample to C7: at `blob36` the claimed loop condition
`offset + 4 ≤ length` holds at offset 32, the record header there is
readable (id 1, declared length 0) and its zero-length body fits, yet the
decoder yields no record: the code iterates only while `offset + 4 < length`
(strictly). -/
theorem cafd_loop_condition_cex :
    32 + 4 ≤ blob36.length ∧
    unpackH (pySlice blob36 32 34) = .ok 1 ∧
    unpackH (pySlice blob36 34 36) = .ok 0 ∧
    32 + 4 + 0 ≤ blob36.length ∧
    parse_cafd_binary blob36 = [] := by
  decide

/-- C7 (amended): the CAFD decoder skips a fixed 32-byte header and iterates
exactly while `offset + 4 < length` (strictly), reading paramId and paramLen
as big-endian u16; when the declared length overruns the remaining bytes it
stops and returns exactly the records decoded so far (no error, no loss),
and otherwise emits the record and advances by `4 + paramLen`. -/
theorem cafd_loop_characterization (data : List Nat) (offset : Nat)
    (acc : List (String × CAFDRecord)) :
    (parse_cafd_binary data = parseLoop data 32 []) ∧
    (data.length ≤ offset + 4 → parseLoop data offset acc = acc) ∧
    (∀ pid plen, offset + 4 < data.length →
      unpackH (pySlice data offset (offset + 2)) = .ok pid →
      unpackH (pySlice data (offset + 2) (offset + 4)) = .ok plen →
      (data.length < offset + 4 + plen → parseLoop data offset acc = acc) ∧
      (offset + 4 + plen ≤ data.length →
        parseLoop data offset acc =
          parseLoop data (offset + 4 + plen)
            (dictInsert ("param_" ++ hex4Upper pid)
              { id := pid,
                value := cafdDecodeValue (pySlice data (offset + 4) (offset + 4 + plen)),
                raw := pyHex (pySlice data (offset + 4) (offset + 4 + plen)),
                rawBytes := pySlice data (offset + 4) (offset + 4 + plen),
                length := plen } acc))) := by
  refine ⟨rfl, ?_, ?_⟩
  · intro hstop
    unfold parseLoop
    cases hf : data.length - offset with
    | zero => rfl
    | succ g => rw [parseLoopAux, if_neg (by omega)]
  · intro pid plen hrun hu1 hu2
    constructor
    · intro hover
      unfold parseLoop
      cases hf : data.length - offset with
      | zero => omega
      | succ g =>
        rw [parseLoopAux, if_pos (by omega)]
        simp only [hu1, hu2]
        rw [if_pos (by omega)]
    · intro hle
      unfold parseLoop
      cases hf : data.length - offset with
      | zero => omega
      | succ g =>
        rw [parseLoopAux, if_pos (by omega)]
        simp only [hu1, hu2]
        rw [if_neg (by omega)]
        exact parseLoopAux_fuel_irrel g _ data (offset + 4 + plen) _
          (by omega) (by omega)

/-- Witness for the amended C7: the loop stops at `blob36` (36 bytes, offset
32: only 4 bytes remain) returning the records decoded so far. -/
theorem cafd_loop_characterization_witness :
    parseLoop blob36 32 [] = [] :=
  (cafd_loop_characterization blob36 32 []).2.1 (by decide)

theorem parseLoopAux_value_inv : ∀ (fuel : Nat) (data : List Nat)
    (offset : Nat) (acc : List (String × CAFDRecord)),
    (∀ p ∈ acc, p.2.value = cafdDecodeValue p.2.rawBytes) →
    ∀ p ∈ parseLoopAux fuel data offset acc,
      p.2.value = cafdDecodeValue p.2.rawBytes := by
  intro fuel
  induction fuel with
  | zero =>
    intro data offset acc hacc
    simpa [parseLoopAux] using hacc
  | succ f ih =>
    intro data offset acc hacc
    rw [parseLoopAux]
    split
    · split
      · split
        · exact hacc
        · exact ih data _ _ (dictInsert_forall _ _ _ _ hacc rfl)
      · exact hacc
    · exact hacc

/-- Counterexample to C8: on the record body `FF` (where strict UTF-8
decoding fails) the decoder stores `""` — the invalid byte is silently
dropped by `errors='ignore'`, not replaced by the claimed hex fallback
`"ff"` — and on `00 41` it stores `"A"`, stripping the *leading* NUL the
claimed trailing-only strip would keep. -/
theorem cafd_value_decode_cex :
    (parse_cafd_binary blobC8).map (fun p => (p.2.rawBytes, p.2.value)) =
      [([0xFF], ""), ([0x00, 0x41], "A")] ∧
    specDecodeValue [0xFF] = "ff" ∧
    specDecodeValue [0x00, 0x41] = String.mk [Char.ofNat 0, Char.ofNat 65] := by
  decide

/-- C8 (amended): for every successfully parsed CAFD record, the decoded
value is the UTF-8 decoding of the raw bytes with invalid sequences dropped
(`errors='ignore'`) and NUL characters stripped from both ends; that decoding
is total, so the source's hex fallback branch is unreachable. -/
theorem cafd_value_is_ignore_decode_stripped (data : List Nat) :
    ∀ p ∈ parse_cafd_binary data,
      p.2.value = String.mk (stripNulBoth (utf8DecodeIgnore p.2.rawBytes)) :=
  parseLoopAux_value_inv _ data 32 [] (by simp)

/-- Witness for the amended C8 at the first record of `blobC8`. -/
theorem cafd_value_is_ignore_decode_stripped_witness :
    ({ id := 1, value := "", raw := "ff", rawBytes := [0xFF], length := 1 } :
        CAFDRecord).value =
      String.mk (stripNulBoth (utf8DecodeIgnore [0xFF])) :=
  cafd_value_is_ignore_decode_stripped blobC8
    ("param_0001",
      { id := 1, value := "", raw := "ff", rawBytes := [0xFF], length := 1 })
    (by decide)

/-- Witness for C10 at the concrete seed `12 34 56 78`. -/
theorem seed_to_key_total_witness :
    ∃ k3 k4, calculate_key_level3 [0x12, 0x34, 0x56, 0x78] = .ok k3 ∧
      k3.length = 4 ∧ (∀ b ∈ k3, b < 256) ∧
      calculate_key_level4 [0x12, 0x34, 0x56, 0x78] = .ok k4 ∧
      k4.length = 4 ∧ (∀ b ∈ k4, b < 256) :=
  (seed_to_key_total [0x12, 0x34, 0x56, 0x78]).1 rfl

end ECUTool
